import Mathlib

/-
Verification of the FastAPI backend service in `main.py`.

The service has four stateless HTTP handlers:
  GET /           (read_root)      static greeting
  GET /api/hello  (hello)          static greeting
  GET /test       (test_database)  database-connectivity probe
  GET /schema     (get_schema)     reflection over the external schemas module

The embedding is shallow: each handler becomes a total Lean function from the
state of its external collaborators (environment variables, the optional
`database.db` handle, the optional `schemas` module) to the response value it
returns.  Python dicts are modelled as ordered association lists with a
replace-or-append assignment, matching Python dict insertion semantics.
-/

set_option autoImplicit false
set_option maxRecDepth 8000

namespace Backend

/-- A value stored in a JSON-like response dict: Python `None`, a string, or a
list of strings.  These are the only value shapes the handlers produce. -/
inductive RVal where
  | vNone
  | vStr (s : String)
  | vList (l : List String)
deriving DecidableEq

/-- Python dict assignment `d[k] = v`: replace the value at the first matching
key, keeping its position, or append a new entry when the key is absent. -/
def dictSet {α : Type} : List (String × α) → String → α → List (String × α)
  | [], k, v => [(k, v)]
  | (k', v') :: rest, k, v =>
      if k' == k then (k', v) :: rest else (k', v') :: dictSet rest k v

/-- Python dict lookup `d[k]`: the value at the first matching key. -/
def dictGet {α : Type} : List (String × α) → String → Option α
  | [], _ => none
  | (k', v') :: rest, k => if k' == k then some v' else dictGet rest k

/-- The environment variables the program reads (`os.getenv`): a set variable
is `some` of its string value, an unset one is `none`. -/
structure Env where
  DATABASE_URL : Option String
  DATABASE_NAME : Option String
  PORT : Option String

/-- Python truthiness of an `os.getenv` result: `None` and the empty string
are falsy, every other string is truthy. -/
def pyTruthy : Option String → Bool
  | none => false
  | some s => s != ""

/-- The possible states of the external database collaborator, as the
`test_database` handler distinguishes them:
  `importFail`   importing `database` raises `ImportError`;
  `otherFail`    importing `database` raises some other exception, with message;
  `dbNone`       the module imports but `db` is `None`;
  `dbOk`         `db` is live, `db.name` (when the attribute exists), and
                 `list_collection_names()` returns the given list;
  `dbErr`        `db` is live but `list_collection_names()` raises, with message. -/
inductive DbImport where
  | importFail
  | otherFail (msg : String)
  | dbNone
  | dbOk (name : Option String) (colls : List String)
  | dbErr (name : Option String) (errMsg : String)

/-- Line 46 of `main.py`: `db.name if hasattr(db, 'name') else "✅ Connected"`. -/
def dbNameValue : Option String → String
  | some n => n
  | none => "✅ Connected"

/-- GET / handler `read_root` from `main.py`. -/
def read_root : List (String × RVal) :=
  [("message", RVal.vStr "Hello from FastAPI Backend!")]

/-- GET /api/hello handler `hello` from `main.py`. -/
def hello : List (String × RVal) :=
  [("message", RVal.vStr "Hello from the backend API!")]

/-- GET /test handler `test_database` from `main.py`, as a function of the
environment and of the database collaborator state.  Every handler statement
is reproduced in order: the initial six-key dict, the try/except ladder over
the `database` import, and the final environment-variable checks that
overwrite `database_url` and `database_name`. -/
def test_database (env : Env) (dbs : DbImport) : List (String × RVal) :=
  let response : List (String × RVal) :=
    [("backend", RVal.vStr "✅ Running"),
     ("database", RVal.vStr "❌ Not Available"),
     ("database_url", RVal.vNone),
     ("database_name", RVal.vNone),
     ("connection_status", RVal.vStr "Not Connected"),
     ("collections", RVal.vList [])]
  let response :=
    match dbs with
    | DbImport.importFail =>
        dictSet response "database"
          (RVal.vStr "❌ Database module not found (run enable-database first)")
    | DbImport.otherFail msg =>
        dictSet response "database" (RVal.vStr ("❌ Error: " ++ msg.take 50))
    | DbImport.dbNone =>
        dictSet response "database" (RVal.vStr "⚠️  Available but not initialized")
    | DbImport.dbOk name colls =>
        let r := dictSet response "database" (RVal.vStr "✅ Available")
        let r := dictSet r "database_url" (RVal.vStr "✅ Configured")
        let r := dictSet r "database_name" (RVal.vStr (dbNameValue name))
        let r := dictSet r "connection_status" (RVal.vStr "Connected")
        let r := dictSet r "collections" (RVal.vList (colls.take 10))
        dictSet r "database" (RVal.vStr "✅ Connected & Working")
    | DbImport.dbErr name errMsg =>
        let r := dictSet response "database" (RVal.vStr "✅ Available")
        let r := dictSet r "database_url" (RVal.vStr "✅ Configured")
        let r := dictSet r "database_name" (RVal.vStr (dbNameValue name))
        let r := dictSet r "connection_status" (RVal.vStr "Connected")
        dictSet r "database" (RVal.vStr ("⚠️  Connected but Error: " ++ errMsg.take 50))
  let response :=
    dictSet response "database_url"
      (RVal.vStr (if pyTruthy env.DATABASE_URL then "✅ Set" else "❌ Not Set"))
  dictSet response "database_name"
    (RVal.vStr (if pyTruthy env.DATABASE_NAME then "✅ Set" else "❌ Not Set"))

/-- A Python whitespace character, as `int(...)` strips it. -/
def isPySpace (c : Char) : Bool :=
  c == ' ' || c == '\t' || c == '\n' || c == '\r' || c == '\x0b' || c == '\x0c'

/-- Strip leading and trailing whitespace from a character list. -/
def pyStrip (l : List Char) : List Char :=
  ((l.dropWhile isPySpace).reverse.dropWhile isPySpace).reverse

/-- Read a nonempty all-digit character list as a natural number. -/
def digitsToNat (l : List Char) : Option Nat :=
  if l ≠ [] ∧ l.all (fun c => c.isDigit) then
    some (l.foldl (fun acc c => acc * 10 + (c.toNat - 48)) 0)
  else none

/-- Python `int(...)` on a string: strip surrounding whitespace, allow one
leading sign, then require decimal digits; `none` stands for `ValueError`. -/
def pythonInt (s : String) : Option Int :=
  match pyStrip s.data with
  | '-' :: rest => (digitsToNat rest).map (fun n => -(n : Int))
  | '+' :: rest => (digitsToNat rest).map (fun n => (n : Int))
  | t => (digitsToNat t).map (fun n => (n : Int))

/-- The `__main__` block of `main.py`: `port = int(os.getenv("PORT", 8000))`.
When `PORT` is unset `os.getenv` yields the default `8000`; when it is set the
string is parsed, `none` standing for the `ValueError` raised on a string that
is not an integer literal. -/
def mainPort (env : Env) : Option Int :=
  match env.PORT with
  | some s => pythonInt s
  | none => some 8000

/-- A Pydantic value, as far as field defaults are concerned: `pyNone` is
Python `None`. -/
inductive PyValue where
  | pyNone
  | pyStr (s : String)
  | pyInt (n : Int)
  | pyBool (b : Bool)
deriving DecidableEq

/-- One entry of a Pydantic model class `model_fields` mapping: the field
name, the string form of its annotation, the declared default (`none` when no
default is declared, so that `is_required()` is true), and the declared
description (`none` when absent). -/
structure PyField where
  name : String
  annotation : String
  defaultVal : Option PyValue
  description : Option String
deriving DecidableEq

/-- A Pydantic model class as `get_schema` consumes it: its declared
attributes, in declaration order, as `model_fields`. -/
structure PyModelClass where
  model_fields : List PyField
deriving DecidableEq

/-- What `inspect.getmembers` reports about one member of the schemas module,
as far as the `get_schema` filter looks at it: either a class subclassing
`BaseModel` (carrying its `__module__` string and its field metadata), or
anything else (a non-class, or a class not subclassing `BaseModel`). -/
inductive MemberObj where
  | modelClass (objModule : String) (cls : PyModelClass)
  | nonModel
deriving DecidableEq

/-- A `(name, obj)` pair yielded by `inspect.getmembers(schemas_module)`. -/
structure Member where
  name : String
  obj : MemberObj
deriving DecidableEq

/-- One entry of the `fields` list that `get_schema` emits per model field. -/
structure FieldOut where
  name : String
  type : String
  required : Bool
  default : Option PyValue
  description : Option String
deriving DecidableEq

/-- Lines 87-100 of `main.py`, for one `model_fields` entry `f`:
`required = f.is_required()` is true exactly when no default is declared;
`default = None if required else (f.default if f.default is not None else None)`;
`description` is kept only when truthy (present and non-empty). -/
def describeField (f : PyField) : FieldOut :=
  let required := f.defaultVal.isNone
  { name := f.name
    type := f.annotation
    required := required
    default :=
      if required then none
      else match f.defaultVal with
        | some PyValue.pyNone => none
        | some v => some v
        | none => none
    description :=
      match f.description with
      | some d => if d == "" then none else some d
      | none => none }

/-- ASCII lowercasing of one character, as Python `str.lower()` acts on the
ASCII range (the range class names use). -/
def pyLowerChar (c : Char) : Char :=
  if 'A' ≤ c ∧ c ≤ 'Z' then Char.ofNat (c.toNat + 32) else c

/-- Python `str.lower()` on a string of ASCII characters. -/
def pyLower (s : String) : String :=
  String.mk (s.data.map pyLowerChar)

/-- The per-class entry `get_schema` builds at lines 102-106 of `main.py`:
the member name lowercased as `collection`, the member name as `title`, and
the described fields. -/
structure SchemaDef where
  collection : String
  title : String
  fields : List FieldOut
deriving DecidableEq

/-- The body of the `get_schema` loop for one member `(name, obj)`:
include the member only when it is a class, subclasses `BaseModel`, and its
`__module__` equals the schemas module name; then assign
`definitions[name] = {collection, title, fields}`. -/
def describeModel (name : String) (model : PyModelClass) : SchemaDef :=
  { collection := pyLower name
    title := name
    fields := model.model_fields.map describeField }

/-- One iteration of the `for name, obj in inspect.getmembers(...)` loop at
lines 83-106 of `main.py`, acting on the `definitions` dict. -/
def schemaStep (moduleName : String) (defs : List (String × SchemaDef))
    (mem : Member) : List (String × SchemaDef) :=
  match mem.obj with
  | MemberObj.modelClass objModule cls =>
      if objModule == moduleName then
        dictSet defs mem.name (describeModel mem.name cls)
      else defs
  | MemberObj.nonModel => defs

/-- The full `definitions` dict built by the `get_schema` loop. -/
def getSchemaDefs (moduleName : String) (members : List Member) :
    List (String × SchemaDef) :=
  members.foldl (schemaStep moduleName) []

/-- The outcome of `importlib.import_module("schemas")`: failure with an
exception message, or success with the module name and its members. -/
inductive SchemasImport where
  | importFail (msg : String)
  | ok (moduleName : String) (members : List Member)

/-- The two response shapes of GET /schema: `{"error": ...}` or
`{"schemas": ...}`. -/
inductive SchemaResponse where
  | error (msg : String)
  | schemas (defs : List (String × SchemaDef))
deriving DecidableEq

/-- GET /schema handler `get_schema` from `main.py`, as a function of the
outcome of importing the schemas module. -/
def get_schema (m : SchemasImport) : SchemaResponse :=
  match m with
  | SchemasImport.importFail msg =>
      SchemaResponse.error ("Unable to import schemas: " ++ msg)
  | SchemasImport.ok moduleName members =>
      SchemaResponse.schemas (getSchemaDefs moduleName members)

/-- A sample schemas module used to instantiate the hypotheses of the
`/schema` theorems on concrete input: one model class defined in the module,
one plain helper member, and one model class imported from elsewhere. -/
def sampleClass : PyModelClass :=
  { model_fields :=
      [{ name := "id", annotation := "int", defaultVal := none, description := none },
       { name := "tag", annotation := "str", defaultVal := some (PyValue.pyStr "x"),
         description := some "a tag" }] }

/-- The member list of the sample schemas module. -/
def sampleMembers : List Member :=
  [{ name := "User", obj := MemberObj.modelClass "schemas" sampleClass },
   { name := "helper", obj := MemberObj.nonModel },
   { name := "Imported", obj := MemberObj.modelClass "other" { model_fields := [] } }]

/-- Every entry of `dictSet l k v` was already in `l` or is the new pair. -/
theorem mem_dictSet {α : Type} {p : String × α} :
    ∀ (l : List (String × α)) (k : String) (v : α),
      p ∈ dictSet l k v → p ∈ l ∨ p = (k, v)
  | [], k, v, h => by
      simp [dictSet] at h
      exact Or.inr h
  | (k', v') :: rest, k, v, h => by
      by_cases hk : (k' == k) = true
      · rw [dictSet, if_pos hk] at h
        rcases List.mem_cons.mp h with h1 | h1
        · exact Or.inr (by rw [h1, eq_of_beq hk])
        · exact Or.inl (List.mem_cons_of_mem _ h1)
      · rw [dictSet, if_neg hk] at h
        rcases List.mem_cons.mp h with h1 | h1
        · exact Or.inl (by rw [h1]; exact List.mem_cons_self _ _)
        · rcases mem_dictSet rest k v h1 with h2 | h2
          · exact Or.inl (List.mem_cons_of_mem _ h2)
          · exact Or.inr h2

/-- Every entry of the `definitions` dict built by the `get_schema` loop
(starting from an arbitrary accumulator) either was in the accumulator or
comes from a member of the module that is a `BaseModel` subclass defined in
the module itself, via `describeModel`. -/
theorem mem_foldl_schemaStep (mn : String) :
    ∀ (members : List Member) (acc : List (String × SchemaDef))
      (p : String × SchemaDef),
      p ∈ members.foldl (schemaStep mn) acc →
      p ∈ acc ∨ ∃ cls : PyModelClass,
        (⟨p.1, MemberObj.modelClass mn cls⟩ : Member) ∈ members ∧
        p.2 = describeModel p.1 cls
  | [], acc, p, h => Or.inl h
  | mem :: rest, acc, p, h => by
      rcases mem_foldl_schemaStep mn rest (schemaStep mn acc mem) p h with h1 | h1
      · cases hmem : mem.obj with
        | modelClass om cls =>
          simp only [schemaStep, hmem] at h1
          by_cases hm : (om == mn) = true
          · rw [if_pos hm] at h1
            rcases mem_dictSet acc mem.name (describeModel mem.name cls) h1 with h2 | h2
            · exact Or.inl h2
            · refine Or.inr ⟨cls, ?_, by rw [h2]⟩
              have heq : (⟨p.1, MemberObj.modelClass mn cls⟩ : Member) = mem := by
                cases mem with
                | mk n o =>
                    simp only at hmem h2 ⊢
                    rw [Prod.ext_iff] at h2
                    simp only at h2
                    rw [h2.1, hmem, eq_of_beq hm]
              rw [heq]
              exact List.mem_cons_self _ _
          · rw [if_neg hm] at h1
            exact Or.inl h1
        | nonModel =>
          simp only [schemaStep, hmem] at h1
          exact Or.inl h1
      · rcases h1 with ⟨cls, hin, hdesc⟩
        exact Or.inr ⟨cls, List.mem_cons_of_mem _ hin, hdesc⟩

/-- Every entry of `getSchemaDefs` comes from a `BaseModel` subclass defined
in the schemas module, keyed by its member name and described by
`describeModel`. -/
theorem mem_getSchemaDefs {mn : String} {members : List Member}
    {k : String} {d : SchemaDef} (h : (k, d) ∈ getSchemaDefs mn members) :
    ∃ cls : PyModelClass,
      (⟨k, MemberObj.modelClass mn cls⟩ : Member) ∈ members ∧
      d = describeModel k cls := by
  rcases mem_foldl_schemaStep mn members [] (k, d) h with h1 | h1
  · cases h1
  · exact h1

/-- The final `database_url` and `database_name` values of the GET /test
response are computed from the environment alone: the checks at lines 64-67 of
`main.py` overwrite whatever the database branch wrote earlier. -/
theorem test_env_values (env : Env) (dbs : DbImport) :
    dictGet (test_database env dbs) "database_url" =
      some (RVal.vStr (if pyTruthy env.DATABASE_URL then "✅ Set" else "❌ Not Set")) ∧
    dictGet (test_database env dbs) "database_name" =
      some (RVal.vStr (if pyTruthy env.DATABASE_NAME then "✅ Set" else "❌ Not Set")) := by
  cases dbs <;> exact ⟨rfl, rfl⟩

/-- C1: every model class exposed in the GET /schema response has a `fields`
list exactly as long as its `model_fields`, and each emitted `required` flag
is true exactly when the corresponding field declares no default. -/
theorem schema_fields_complete (mn : String) (members : List Member)
    (k : String) (d : SchemaDef) (h : (k, d) ∈ getSchemaDefs mn members) :
    ∃ cls : PyModelClass,
      (⟨k, MemberObj.modelClass mn cls⟩ : Member) ∈ members ∧
      d.fields.length = cls.model_fields.length ∧
      d.fields.map FieldOut.required =
        cls.model_fields.map (fun f => f.defaultVal.isNone) := by
  rcases mem_getSchemaDefs h with ⟨cls, hin, hd⟩
  subst hd
  refine ⟨cls, hin, ?_, ?_⟩
  · simp [describeModel]
  · simp only [describeModel, List.map_map]
    rfl

/-- Witness for C1 at the sample schemas module. -/
theorem schema_fields_complete_witness :
    ∃ cls : PyModelClass,
      (⟨"User", MemberObj.modelClass "schemas" cls⟩ : Member) ∈ sampleMembers ∧
      (describeModel "User" sampleClass).fields.length = cls.model_fields.length ∧
      (describeModel "User" sampleClass).fields.map FieldOut.required =
        cls.model_fields.map (fun f => f.defaultVal.isNone) :=
  schema_fields_complete "schemas" sampleMembers "User"
    (describeModel "User" sampleClass) (by decide)

/-- C2: for every environment and every state of the database collaborator,
the GET /test handler returns (it is a total function) and its response dict
contains all six keys. -/
theorem test_response_six_keys (env : Env) (dbs : DbImport) :
    (dictGet (test_database env dbs) "backend").isSome = true ∧
    (dictGet (test_database env dbs) "database").isSome = true ∧
    (dictGet (test_database env dbs) "database_url").isSome = true ∧
    (dictGet (test_database env dbs) "database_name").isSome = true ∧
    (dictGet (test_database env dbs) "connection_status").isSome = true ∧
    (dictGet (test_database env dbs) "collections").isSome = true := by
  cases dbs <;> exact ⟨rfl, rfl, rfl, rfl, rfl, rfl⟩

/-- Witness for C2 at a concrete environment and collaborator state. -/
theorem test_response_six_keys_witness :
    (dictGet (test_database ⟨none, none, none⟩ DbImport.importFail) "backend").isSome = true ∧
    (dictGet (test_database ⟨none, none, none⟩ DbImport.importFail) "database").isSome = true ∧
    (dictGet (test_database ⟨none, none, none⟩ DbImport.importFail) "database_url").isSome = true ∧
    (dictGet (test_database ⟨none, none, none⟩ DbImport.importFail) "database_name").isSome = true ∧
    (dictGet (test_database ⟨none, none, none⟩ DbImport.importFail) "connection_status").isSome = true ∧
    (dictGet (test_database ⟨none, none, none⟩ DbImport.importFail) "collections").isSome = true :=
  test_response_six_keys ⟨none, none, none⟩ DbImport.importFail

/-- C3: when importing the schemas module raises, GET /schema returns the
`error` shape with a descriptive message, never propagating the exception. -/
theorem schema_import_error_shape (msg : String) :
    get_schema (SchemasImport.importFail msg) =
      SchemaResponse.error ("Unable to import schemas: " ++ msg) := rfl

/-- C4: every failure of the database collaborator is rendered inside the
GET /test response as the corresponding descriptive string under the
`database` key; the handler stays total on all failure states. -/
theorem test_failures_rendered (env : Env) :
    dictGet (test_database env DbImport.importFail) "database" =
      some (RVal.vStr "❌ Database module not found (run enable-database first)") ∧
    (∀ msg : String,
      dictGet (test_database env (DbImport.otherFail msg)) "database" =
        some (RVal.vStr ("❌ Error: " ++ msg.take 50))) ∧
    dictGet (test_database env DbImport.dbNone) "database" =
      some (RVal.vStr "⚠️  Available but not initialized") ∧
    (∀ (name errMsg : String),
      dictGet (test_database env (DbImport.dbErr (some name) errMsg)) "database" =
        some (RVal.vStr ("⚠️  Connected but Error: " ++ errMsg.take 50))) ∧
    (∀ errMsg : String,
      dictGet (test_database env (DbImport.dbErr none errMsg)) "database" =
        some (RVal.vStr ("⚠️  Connected but Error: " ++ errMsg.take 50))) :=
  ⟨rfl, fun _ => rfl, rfl, fun _ _ => rfl, fun _ => rfl⟩

/-- C5: GET / and GET /api/hello are constants of their handlers: each always
returns its fixed single-key message object, there being no input, environment
or collaborator dependence at all. -/
theorem root_and_hello_fixed :
    read_root = [("message", RVal.vStr "Hello from FastAPI Backend!")] ∧
    hello = [("message", RVal.vStr "Hello from the backend API!")] ∧
    dictGet read_root "message" = some (RVal.vStr "Hello from FastAPI Backend!") ∧
    dictGet hello "message" = some (RVal.vStr "Hello from the backend API!") :=
  ⟨rfl, rfl, rfl, rfl⟩

/-- C6 counterexample: with `DATABASE_URL` set to the empty string the
variable is set, yet the final `database_url` value is "❌ Not Set", because
the handler tests Python truthiness rather than presence. -/
theorem env_presence_counterexample :
    (Env.mk (some "") none none).DATABASE_URL.isSome = true ∧
    dictGet (test_database (Env.mk (some "") none none) DbImport.importFail)
        "database_url" ≠ some (RVal.vStr "✅ Set") := by
  decide

/-- C6 (amended): the final `database_url` is "✅ Set" exactly when
`DATABASE_URL` is set to a non-empty (truthy) string, and likewise
`database_name` for `DATABASE_NAME`; both depend on nothing but the truthiness
of their variable, whose value is never otherwise used. -/
theorem env_presence_reported (env : Env) (dbs : DbImport) :
    dictGet (test_database env dbs) "database_url" =
      some (RVal.vStr (if pyTruthy env.DATABASE_URL then "✅ Set" else "❌ Not Set")) ∧
    dictGet (test_database env dbs) "database_name" =
      some (RVal.vStr (if pyTruthy env.DATABASE_NAME then "✅ Set" else "❌ Not Set")) :=
  test_env_values env dbs

/-- C7: the listening port is 8000 when `PORT` is unset, and the parsed
integer value of `PORT` when it is set to an integer literal. -/
theorem port_selection (env : Env) :
    (env.PORT = none → mainPort env = some 8000) ∧
    (∀ (s : String) (n : Int), env.PORT = some s → pythonInt s = some n →
      mainPort env = some n) := by
  constructor
  · intro h
    simp [mainPort, h]
  · intro s n hs hn
    simp [mainPort, hs, hn]

/-- Witness for C7: unset gives 8000, `PORT=3000` gives 3000. -/
theorem port_selection_witness :
    mainPort ⟨none, none, none⟩ = some 8000 ∧
    mainPort ⟨none, none, some "3000"⟩ = some 3000 :=
  ⟨(port_selection ⟨none, none, none⟩).1 rfl,
   (port_selection ⟨none, none, some "3000"⟩).2 "3000" 3000 rfl (by decide)⟩

/-- C8: every entry of the GET /schema response has `collection` equal to the
lowercased member name and `title` equal to the member name, and arises only
from a `BaseModel` subclass whose `__module__` is the schemas module itself. -/
theorem schema_collection_title (mn : String) (members : List Member)
    (k : String) (d : SchemaDef) (h : (k, d) ∈ getSchemaDefs mn members) :
    d.collection = pyLower k ∧ d.title = k ∧
    ∃ cls : PyModelClass,
      (⟨k, MemberObj.modelClass mn cls⟩ : Member) ∈ members := by
  rcases mem_getSchemaDefs h with ⟨cls, hin, hd⟩
  subst hd
  exact ⟨rfl, rfl, cls, hin⟩

/-- Witness for C8 at the sample schemas module. -/
theorem schema_collection_title_witness :
    (describeModel "User" sampleClass).collection = pyLower "User" ∧
    (describeModel "User" sampleClass).title = "User" ∧
    ∃ cls : PyModelClass,
      (⟨"User", MemberObj.modelClass "schemas" cls⟩ : Member) ∈ sampleMembers :=
  schema_collection_title "schemas" sampleMembers "User"
    (describeModel "User" sampleClass) (by decide)

/-- C9: in every GET /test response the `collections` value is a list of at
most 10 names, however many the database handle reports. -/
theorem collections_at_most_ten (env : Env) (dbs : DbImport) :
    ∃ l : List String,
      dictGet (test_database env dbs) "collections" = some (RVal.vList l) ∧
      l.length ≤ 10 := by
  cases dbs with
  | importFail => exact ⟨[], rfl, by decide⟩
  | otherFail msg => exact ⟨[], rfl, by decide⟩
  | dbNone => exact ⟨[], rfl, by decide⟩
  | dbOk name colls =>
      refine ⟨colls.take 10, rfl, ?_⟩
      exact List.length_take_le 10 colls
  | dbErr name errMsg => exact ⟨[], rfl, by decide⟩

/-- C10: the final `database_url` and `database_name` values of GET /test do
not depend on the database collaborator state at all: two runs under the same
environment agree on them whatever the collaborator did, because the
end-of-handler environment check overwrites any earlier value. -/
theorem env_keys_collaborator_independent (env : Env) (dbs1 dbs2 : DbImport) :
    dictGet (test_database env dbs1) "database_url" =
      dictGet (test_database env dbs2) "database_url" ∧
    dictGet (test_database env dbs1) "database_name" =
      dictGet (test_database env dbs2) "database_name" :=
  ⟨(test_env_values env dbs1).1.trans (test_env_values env dbs2).1.symm,
   (test_env_values env dbs1).2.trans (test_env_values env dbs2).2.symm⟩

end Backend
